import Mathlib

/-!
Verification development for the English conversation practice app.

The frontend definitions (`ConversationMessage`, `ConversationState`,
`displayMessages`, `VoiceRecorder`, `App`) are shallow embeddings of the
TypeScript sources under `frontend/src`.  The conversation-session core
(Session Store, Conversation Engine, Session Gateway) is not part of the
source tree; it is modelled from the specification, as marked on each
definition.
-/

namespace Practice

/-- Message role, mirroring the union type `"system" | "user" | "assistant"`
in `frontend/src/types.ts`. -/
inductive Role where
  | system
  | user
  | assistant
deriving DecidableEq, Repr

/-- `AudioPayload` from `frontend/src/types.ts`: MIME type plus encoded
(base64) byte content. -/
structure AudioPayload where
  mime_type : String
  data : String
deriving DecidableEq, Repr

/-- `PhrasebookEntry` from `frontend/src/types.ts`. -/
structure PhrasebookEntry where
  english : String
  japanese : String
deriving DecidableEq, Repr

/-- `ScenarioTurn` from `frontend/src/types.ts`. -/
structure ScenarioTurn where
  prompt : String
  hints : List String
  sample_response : String
  grammar_focus : String
deriving DecidableEq, Repr

/-- `ScenarioResource` from `frontend/src/types.ts`. -/
structure ScenarioResource where
  id : String
  title : String
  description : String
  partner_role : String
  goals : List String
  turns : List ScenarioTurn
  tips : List String
  phrasebook : List PhrasebookEntry
deriving DecidableEq, Repr

/-- `ConversationMessage` from `frontend/src/types.ts`.  `created_at` is an
ISO timestamp string in the frontend; the panel never compares timestamps. -/
structure ConversationMessage where
  id : String
  role : Role
  text : String
  audio : Option AudioPayload
  created_at : String
deriving DecidableEq, Repr

/-- `ConversationState` from `frontend/src/types.ts`. -/
structure ConversationState where
  session_id : String
  scenario : ScenarioResource
  messages : List ConversationMessage
deriving DecidableEq, Repr

/-- `VoiceMessageResponse` from `frontend/src/types.ts`. -/
structure VoiceMessageResponse where
  conversation : ConversationState
  transcript : Option String
deriving DecidableEq, Repr

/-- `displayMessages` from `frontend/src/components/ConversationPanel.tsx`:
with no conversation the panel shows the empty list, otherwise it filters
out every message whose role is `system`. -/
def displayMessages (conversation : Option ConversationState) :
    List ConversationMessage :=
  match conversation with
  | none => []
  | some conv => conv.messages.filter (fun m => m.role ≠ Role.system)

namespace VoiceRecorder

/-- `ondataavailable` handler from `VoiceRecorder.startRecording`: a chunk is
pushed onto `chunksRef.current` only when `event.data.size > 0`.  A chunk is
modelled as its byte content. -/
def handleData (chunks : List (List Nat)) (d : List Nat) : List (List Nat) :=
  if d.length > 0 then chunks ++ [d] else chunks

/-- The chunks accumulated over a whole recording run, starting from the
`chunksRef.current = []` reset in `startRecording` and feeding every emitted
data event through `handleData`. -/
def recordRun (events : List (List Nat)) : List (List Nat) :=
  events.foldl handleData []

/-- `onstop` handler from `VoiceRecorder.startRecording`: builds
`new Blob(chunksRef.current)` (concatenation of the recorded chunks) and
unconditionally invokes `onRecordingComplete` with it.  `some blob` means the
callback was invoked with `blob`. -/
def onStop (events : List (List Nat)) : Option (List Nat) :=
  some (recordRun events).flatten

end VoiceRecorder

namespace App

/-- The React state of `App` in `frontend/src/App.tsx`. -/
structure AppState where
  scenarios : List ScenarioResource
  loadingScenarios : Bool
  conversation : Option ConversationState
  error : Option String
  processing : Bool
deriving DecidableEq, Repr

/-- Outcome of the `axios.post` call inside `sendVoiceMessage`. -/
inductive HttpResult where
  | ok (data : VoiceMessageResponse)
  | err
deriving DecidableEq, Repr

/-- The error banner text set by `sendVoiceMessage` on failure. -/
def voiceFailureText : String :=
  "The voice request failed. Ensure the backend is running with a valid OpenAI key."

/-- `sendVoiceMessage` from `frontend/src/App.tsx`, as a state transition on
the `App` state given the HTTP outcome: bails out when no conversation is
active; on success stores the returned conversation and clears the error; on
failure sets the error banner; `finally` resets the processing flag. -/
def sendVoiceMessage (st : AppState) (result : HttpResult) : AppState :=
  match st.conversation with
  | none => st
  | some _ =>
    match result with
    | HttpResult.ok data =>
        { st with conversation := some data.conversation,
                  error := none, processing := false }
    | HttpResult.err =>
        { st with error := some voiceFailureText, processing := false }

end App

/-! ## The conversation-session core, modelled from the spec

The backend package (`backend/`) is referenced by the README but its code is
not part of the source tree; the Session Store, Conversation Engine and
Session Gateway below are modelled from the specification (§3–§4.3). -/

/-- Modelled from the spec: the error taxonomy of §7 (the backend source is
absent): `UnknownScenario`, `NotFound`, `InvalidAudio`, `ProviderError`. -/
inductive CoreError where
  | UnknownScenario
  | NotFound
  | InvalidAudio
  | ProviderError
deriving DecidableEq, Repr

/-- Modelled from the spec: the core's `Message` of §3 (the backend source is
absent): id, role, text (never absent), optional audio payload, creation
timestamp.  Time is modelled as a natural-number logical clock so that
"strictly after" is expressible. -/
structure Message where
  id : String
  role : Role
  text : String
  audio : Option AudioPayload
  created_at : Nat
deriving DecidableEq, Repr

/-- Modelled from the spec: the core's `Session` of §3 (the backend source is
absent): opaque session id, the scenario record it references, and the
append-only ordered message sequence. -/
structure Session where
  session_id : String
  scenario : ScenarioResource
  messages : List Message
deriving DecidableEq, Repr

/-- Modelled from the spec: the Session Store's internal map of session id to
session (§5), as an association list. -/
def lookupSession : List (String × Session) → String → Option Session
  | [], _ => none
  | (k, v) :: rest, sid => if k = sid then some v else lookupSession rest sid

/-- Modelled from the spec: in-place replacement of the session stored under
`sid` (the Store is the single writer; each commit installs a whole new
message sequence value, §3 Ownership / §9). -/
def updateSession : List (String × Session) → String → Session →
    List (String × Session)
  | [], _, _ => []
  | (k, v) :: rest, sid, s' =>
    if k = sid then (k, s') :: updateSession rest sid s'
    else (k, v) :: updateSession rest sid s'

/-- Modelled from the spec: the Session Store state (§4.1): the session map
plus the monotone clock and id counter the store draws timestamps and opaque
session ids from. -/
structure Store where
  sessions : List (String × Session)
  clock : Nat
  nextId : Nat
deriving DecidableEq, Repr

/-- The store of a freshly started process: no sessions. -/
def Store.empty : Store :=
  { sessions := [], clock := 0, nextId := 0 }

/-- Modelled from the spec: `get(session_id)` (§4.1) fails with `NotFound`
when no session with that id exists. -/
def Store.get (st : Store) (sid : String) : Except CoreError Session :=
  match lookupSession st.sessions sid with
  | some s => Except.ok s
  | none => Except.error CoreError.NotFound

/-- Modelled from the spec: the system message `create` seeds the history
with, built from the scenario's description and goals (§4.1). -/
def systemSeed (sid : String) (sc : ScenarioResource) (now : Nat) : Message :=
  { id := sid ++ "-m0", role := Role.system,
    text := sc.description ++ " " ++ String.intercalate " " sc.goals,
    audio := none, created_at := now }

/-- Modelled from the spec: `create(scenario)` (§4.1): allocates a fresh
opaque session id, seeds the history with one system message built from the
scenario, stores the session and returns it. -/
def Store.create (st : Store) (sc : ScenarioResource) : Store × Session :=
  let sid := "session-" ++ toString st.nextId
  let sess : Session :=
    { session_id := sid, scenario := sc,
      messages := [systemSeed sid sc st.clock] }
  ({ sessions := (sid, sess) :: st.sessions,
     clock := st.clock + 1, nextId := st.nextId + 1 }, sess)

/-- Modelled from the spec: `appendTurn(session_id, newMessages)` (§4.1):
atomically appends the messages, in the given order, as one contiguous block
to the session's history and returns the updated store and session; fails
with `NotFound` if the session does not exist. -/
def Store.appendTurn (st : Store) (sid : String) (ms : List Message) :
    Except CoreError (Store × Session) :=
  match lookupSession st.sessions sid with
  | none => Except.error CoreError.NotFound
  | some s =>
    let s' := { s with messages := s.messages ++ ms }
    Except.ok ({ st with sessions := updateSession st.sessions sid s' }, s')

/-- Modelled from the spec: the Voice Provider's reply (§6): transcript of
the learner's speech, the assistant's reply text, and its reply audio when
present. -/
structure ProviderReply where
  transcript : String
  replyText : String
  replyAudio : Option AudioPayload
deriving DecidableEq, Repr

/-- Modelled from the spec: the Voice Provider contract (§6): `converse`
takes the (role, text) context and the audio payload, and may fail with a
provider-specific error body (a string), which the core never leaks. -/
def Provider : Type :=
  List (Role × String) → AudioPayload → Except String ProviderReply

/-- Modelled from the spec: the provider request context (§4.2 step 2): the
scenario's partner role and goals, then the full prior history as role and
text only. -/
def providerContext (s : Session) : List (Role × String) :=
  (Role.system,
    s.scenario.partner_role ++ " " ++ String.intercalate " " s.scenario.goals)
    :: s.messages.map (fun m => (m.role, m.text))

/-- Modelled from the spec: `processTurn(session, audioBlob)` (§4.2):
validates the blob is non-empty (else `InvalidAudio`), invokes the provider
(else `ProviderError`), and on success builds the user message (transcript,
the submitted blob, timestamp `now`) and the assistant message (reply text,
reply audio, timestamp strictly after the user's).  The second component
counts provider invocations.  No shared state is mutated. -/
def processTurn (provider : Provider) (s : Session) (blob : AudioPayload)
    (now : Nat) : Except CoreError (Message × Message) × Nat :=
  if blob.data.isEmpty then (Except.error CoreError.InvalidAudio, 0)
  else
    match provider (providerContext s) blob with
    | Except.error _ => (Except.error CoreError.ProviderError, 1)
    | Except.ok reply =>
      (Except.ok
        ({ id := s.session_id ++ "-u" ++ toString now, role := Role.user,
           text := reply.transcript, audio := some blob, created_at := now },
         { id := s.session_id ++ "-a" ++ toString now, role := Role.assistant,
           text := reply.replyText, audio := reply.replyAudio,
           created_at := now + 1 }), 1)

/-- Modelled from the spec: the Gateway's `submitVoice(sessionId, audioBlob)`
(§4.3): fetches the session via `Store.get`, runs `processTurn`, commits the
user/assistant pair atomically via `Store.appendTurn`.  Returns the outcome,
the resulting store (unchanged on any failure), and the number of provider
invocations. -/
def submitVoice (provider : Provider) (st : Store) (sid : String)
    (blob : AudioPayload) : Except CoreError Session × Store × Nat :=
  match st.get sid with
  | Except.error e => (Except.error e, st, 0)
  | Except.ok s =>
    match processTurn provider s blob st.clock with
    | (Except.error e, n) => (Except.error e, st, n)
    | (Except.ok (u, a), n) =>
      match Store.appendTurn { st with clock := st.clock + 2 } sid [u, a] with
      | Except.error e => (Except.error e, st, n)
      | Except.ok (st', s') => (Except.ok s', st', n)

/-- The stores reachable from process start through the core's operations:
session creation and voice submissions (successful or failed). -/
inductive Reachable : Store → Prop where
  | empty : Reachable Store.empty
  | create (st : Store) (sc : ScenarioResource) :
      Reachable st → Reachable (Store.create st sc).1
  | submit (st : Store) (p : Provider) (sid : String) (blob : AudioPayload) :
      Reachable st → Reachable (submitVoice p st sid blob).2.1

/-! ## Store lemmas -/

/-- The session with a block of messages appended to its history. -/
def Session.append (s : Session) (ms : List Message) : Session :=
  { s with messages := s.messages ++ ms }

theorem lookupSession_updateSession_self (l : List (String × Session))
    (sid : String) (s' : Session) (s : Session)
    (h : lookupSession l sid = some s) :
    lookupSession (updateSession l sid s') sid = some s' := by
  induction l with
  | nil => simp [lookupSession] at h
  | cons p rest ih =>
    obtain ⟨k, v⟩ := p
    by_cases hk : k = sid
    · simp [lookupSession, updateSession, hk]
    · simp only [lookupSession, updateSession, if_neg hk] at h ⊢
      exact ih h

theorem lookupSession_updateSession_ne (l : List (String × Session))
    (sid k : String) (s' : Session) (hne : k ≠ sid) :
    lookupSession (updateSession l sid s') k = lookupSession l k := by
  induction l with
  | nil => simp [lookupSession, updateSession]
  | cons p rest ih =>
    obtain ⟨k0, v⟩ := p
    by_cases h0 : k0 = sid
    · subst h0
      have hkk : ¬ (k0 = k) := fun hh => hne hh.symm
      simp [lookupSession, updateSession, hkk, ih]
    · by_cases hk : k0 = k
      · subst hk
        simp [lookupSession, updateSession, h0]
      · simp [lookupSession, updateSession, h0, hk, ih]

theorem updateSession_comm (l : List (String × Session)) (sid1 sid2 : String)
    (a b : Session) (hne : sid1 ≠ sid2) :
    updateSession (updateSession l sid1 a) sid2 b
      = updateSession (updateSession l sid2 b) sid1 a := by
  induction l with
  | nil => simp [updateSession]
  | cons p rest ih =>
    obtain ⟨k, v⟩ := p
    by_cases h1 : k = sid1
    · subst h1
      have h2 : ¬ (k = sid2) := fun hh => hne (hh ▸ rfl)
      simp [updateSession, h2, ih]
    · by_cases h2 : k = sid2
      · subst h2
        have h1s : ¬ (k = sid1) := h1
        simp [updateSession, h1s, ih]
      · simp [updateSession, h1, h2, ih]

theorem appendTurn_ok (st : Store) (sid : String) (s : Session)
    (ms : List Message) (h : lookupSession st.sessions sid = some s) :
    st.appendTurn sid ms
      = Except.ok
          ({ st with sessions := updateSession st.sessions sid (s.append ms) },
           s.append ms) := by
  simp [Store.appendTurn, Session.append, h]

theorem appendTurn_ok_inv (st : Store) (sid : String) (ms : List Message)
    (st' : Store) (s' : Session)
    (h : st.appendTurn sid ms = Except.ok (st', s')) :
    ∃ s, lookupSession st.sessions sid = some s ∧
      s' = s.append ms ∧
      st'.sessions = updateSession st.sessions sid s' ∧
      st'.clock = st.clock ∧ st'.nextId = st.nextId := by
  cases hl : lookupSession st.sessions sid with
  | none => simp [Store.appendTurn, hl] at h
  | some s =>
    refine ⟨s, rfl, ?_⟩
    rw [appendTurn_ok st sid s ms hl] at h
    have h' := Except.ok.inj h
    have hsess := (congrArg Prod.snd h').symm
    refine ⟨hsess, ?_, ?_, ?_⟩ <;> (cases h'; rfl)

/-! ## Engine lemmas -/

theorem processTurn_ok_inv (p : Provider) (s : Session) (blob : AudioPayload)
    (now : Nat) (u a : Message) (n : Nat)
    (h : processTurn p s blob now = (Except.ok (u, a), n)) :
    blob.data.isEmpty = false ∧ n = 1 ∧
      u.role = Role.user ∧ a.role = Role.assistant ∧
      u.created_at = now ∧ a.created_at = now + 1 := by
  cases he : blob.data.isEmpty with
  | true => simp [processTurn, he] at h
  | false =>
    cases hp : p (providerContext s) blob with
    | error msg => simp [processTurn, he, hp] at h
    | ok reply =>
      simp [processTurn, he, hp] at h
      obtain ⟨⟨hu, ha⟩, hn⟩ := h
      refine ⟨rfl, hn.symm, ?_, ?_, ?_, ?_⟩ <;> simp [← hu, ← ha]

/-! ## Gateway lemmas -/

theorem submitVoice_ok_inv (p : Provider) (st : Store) (sid : String)
    (blob : AudioPayload) (s' : Session) (st' : Store) (n : Nat)
    (h : submitVoice p st sid blob = (Except.ok s', st', n)) :
    ∃ s u a, lookupSession st.sessions sid = some s ∧
      processTurn p s blob st.clock = (Except.ok (u, a), n) ∧
      s' = s.append [u, a] ∧
      st' = { sessions := updateSession st.sessions sid s',
              clock := st.clock + 2, nextId := st.nextId } := by
  cases hl : lookupSession st.sessions sid with
  | none => simp [submitVoice, Store.get, hl] at h
  | some s =>
    cases hpt : processTurn p s blob st.clock with
    | mk res cnt =>
      cases res with
      | error e => simp [submitVoice, Store.get, hl, hpt] at h
      | ok ua =>
        obtain ⟨u, a⟩ := ua
        have happ :
            Store.appendTurn { st with clock := st.clock + 2 } sid [u, a]
              = Except.ok
                  ({ sessions := updateSession st.sessions sid (s.append [u, a]),
                     clock := st.clock + 2, nextId := st.nextId },
                   s.append [u, a]) :=
          appendTurn_ok _ sid s [u, a] hl
        simp only [submitVoice, Store.get, hl, hpt, happ] at h
        obtain ⟨h1, h2⟩ := Prod.mk.inj h
        obtain ⟨h3, h4⟩ := Prod.mk.inj h2
        exact ⟨s, u, a, rfl, h4 ▸ hpt, (Except.ok.inj h1).symm,
          by rw [← h3, Except.ok.inj h1]⟩

theorem submitVoice_error_store (p : Provider) (st : Store) (sid : String)
    (blob : AudioPayload) (e : CoreError) (st2 : Store) (n : Nat)
    (h : submitVoice p st sid blob = (Except.error e, st2, n)) : st2 = st := by
  cases hl : lookupSession st.sessions sid with
  | none =>
    simp only [submitVoice, Store.get, hl] at h
    exact (Prod.mk.inj (Prod.mk.inj h).2).1.symm
  | some s =>
    cases hpt : processTurn p s blob st.clock with
    | mk res cnt =>
      cases res with
      | error e2 =>
        simp only [submitVoice, Store.get, hl, hpt] at h
        exact (Prod.mk.inj (Prod.mk.inj h).2).1.symm
      | ok ua =>
        obtain ⟨u, a⟩ := ua
        have happ := appendTurn_ok { st with clock := st.clock + 2 } sid s
          [u, a] hl
        simp [submitVoice, Store.get, hl, hpt, happ] at h

/-! ## The session-history invariant -/

/-- The invariants of a single session's history relative to the store clock:
the history starts with a system message, timestamps are non-decreasing in
append order, and every timestamp was drawn before the current clock. -/
def GoodHistory (clock : Nat) (ms : List Message) : Prop :=
  (∃ m rest, ms = m :: rest ∧ m.role = Role.system) ∧
    List.Chain' (fun x y => x.created_at ≤ y.created_at) ms ∧
    ∀ m ∈ ms, m.created_at < clock

/-- Every session stored in the store satisfies the history invariant. -/
def Store.WF (st : Store) : Prop :=
  ∀ sid s, lookupSession st.sessions sid = some s →
    GoodHistory st.clock s.messages

theorem GoodHistory.mono (c c' : Nat) (ms : List Message) (hc : c ≤ c')
    (h : GoodHistory c ms) : GoodHistory c' ms :=
  ⟨h.1, h.2.1, fun m hm => lt_of_lt_of_le (h.2.2 m hm) hc⟩

theorem GoodHistory.append_turn (c : Nat) (ms : List Message) (u a : Message)
    (h : GoodHistory c ms) (hu : u.created_at = c) (ha : a.created_at = c + 1) :
    GoodHistory (c + 2) (ms ++ [u, a]) := by
  obtain ⟨⟨m, rest, hcons, hrole⟩, hchain, hbound⟩ := h
  refine ⟨⟨m, rest ++ [u, a], by simp [hcons], hrole⟩, ?_, ?_⟩
  · rw [List.chain'_append]
    refine ⟨hchain, ?_, ?_⟩
    · simp [hu, ha]
    · intro x hx y hy
      have hxm : x ∈ ms := List.mem_of_mem_getLast? hx
      have hxc := hbound x hxm
      have hyu : y = u := by
        simp only [List.head?_cons, Option.mem_def, Option.some.injEq] at hy
        exact hy.symm
      subst hyu
      omega
  · intro m' hm'
    rcases List.mem_append.mp hm' with hold | hnew
    · have := hbound m' hold
      omega
    · have h2 : m' = u ∨ m' = a := by simpa using hnew
      rcases h2 with rfl | rfl <;> omega

theorem reachable_wf (st : Store) (h : Reachable st) : st.WF := by
  induction h with
  | empty =>
    intro sid s hs
    simp [Store.empty, lookupSession] at hs
  | create st0 sc _ ih =>
    intro sid s hs
    show GoodHistory (st0.clock + 1) s.messages
    have hs' : (if ("session-" ++ toString st0.nextId) = sid
        then some { session_id := "session-" ++ toString st0.nextId,
                    scenario := sc,
                    messages := [systemSeed ("session-" ++ toString st0.nextId)
                      sc st0.clock] }
        else lookupSession st0.sessions sid) = some s := hs
    by_cases hk : ("session-" ++ toString st0.nextId) = sid
    · rw [if_pos hk, Option.some.injEq] at hs'
      subst hs'
      refine ⟨⟨_, [], rfl, rfl⟩, List.chain'_singleton _, ?_⟩
      intro m hm
      have hm' : m = systemSeed ("session-" ++ toString st0.nextId) sc
          st0.clock := by simpa using hm
      subst hm'
      simp [systemSeed]
    · rw [if_neg hk] at hs'
      exact GoodHistory.mono st0.clock (st0.clock + 1) s.messages
        (Nat.le_succ _) (ih sid s hs')
  | submit st0 p sid blob _ ih =>
    cases hres : submitVoice p st0 sid blob with
    | mk res rest =>
      obtain ⟨st2, n⟩ := rest
      cases res with
      | error e =>
        have h0 : st2 = st0 :=
          submitVoice_error_store p st0 sid blob e st2 n hres
        show st2.WF
        rw [h0]
        exact ih
      | ok s' =>
        obtain ⟨s, u, a, hl, hpt, hs', hst'⟩ :=
          submitVoice_ok_inv p st0 sid blob s' st2 n hres
        show st2.WF
        subst hst'
        intro sid2 t hlt
        show GoodHistory (st0.clock + 2) t.messages
        have hlt' : lookupSession (updateSession st0.sessions sid s') sid2
            = some t := hlt
        obtain ⟨_, _, _, _, hcu, hca⟩ :=
          processTurn_ok_inv p s blob st0.clock u a n hpt
        by_cases hsid : sid2 = sid
        · subst hsid
          have hself :=
            lookupSession_updateSession_self st0.sessions sid2 s' s hl
          rw [hself, Option.some.injEq] at hlt'
          subst hlt'
          rw [hs']
          exact GoodHistory.append_turn st0.clock s.messages u a
            (ih sid2 s hl) hcu hca
        · rw [lookupSession_updateSession_ne st0.sessions sid sid2 s' hsid]
            at hlt'
          exact GoodHistory.mono st0.clock (st0.clock + 2) t.messages
            (by omega) (ih sid2 t hlt')

/-! ## Concrete objects used by the witness evaluations -/

/-- A concrete scenario record. -/
def demoScenario : ScenarioResource :=
  { id := "cafe-order", title := "Cafe order",
    description := "Order a drink at a cafe.", partner_role := "barista",
    goals := ["Order politely"], turns := [], tips := [], phrasebook := [] }

/-- A second concrete scenario record, for the two-session store. -/
def demoScenarioB : ScenarioResource :=
  { demoScenario with id := "hotel-checkin", partner_role := "receptionist" }

/-- The store after creating one session from `demoScenario`. -/
def demoStore : Store := (Store.create Store.empty demoScenario).1

/-- The session created from `demoScenario` (id `session-0`). -/
def demoSession : Session := (Store.create Store.empty demoScenario).2

/-- The store holding two sessions (`session-0` and `session-1`). -/
def demoStoreTwo : Store := (Store.create demoStore demoScenarioB).1

/-- A provider stub that always answers the same turn. -/
def stubProvider : Provider := fun _ _ =>
  Except.ok { transcript := "Id like a coffee",
              replyText := "Sure, what size?", replyAudio := none }

/-- A provider stub that always fails. -/
def failingProvider : Provider := fun _ _ => Except.error "quota exceeded"

/-- A concrete non-empty audio payload. -/
def demoBlob : AudioPayload := { mime_type := "audio/webm", data := "R0lGOD" }

/-- A concrete empty audio payload. -/
def emptyBlob : AudioPayload := { mime_type := "audio/webm", data := "" }

/-- The outcome of one concrete successful voice submission. -/
def demoCommit : Except CoreError Session × Store × Nat :=
  submitVoice stubProvider demoStore "session-0" demoBlob

/-- The session returned by `demoCommit`. -/
def demoOkSession : Session := demoCommit.1.toOption.getD demoSession

/-- The store after `demoCommit`. -/
def demoOkStore : Store := demoCommit.2.1

/-- The provider-invocation count of `demoCommit`. -/
def demoOkCount : Nat := demoCommit.2.2

/-- The outcome of one concrete voice submission with a failing provider. -/
def demoFail : Except CoreError Session × Store × Nat :=
  submitVoice failingProvider demoStore "session-0" demoBlob

/-- Extracts the committed store of a successful `appendTurn`. -/
def okStore (r : Except CoreError (Store × Session)) : Store :=
  (r.toOption.getD (Store.empty, demoSession)).1

/-- Extracts the committed session of a successful `appendTurn`. -/
def okSession (r : Except CoreError (Store × Session)) : Session :=
  (r.toOption.getD (Store.empty, demoSession)).2

/-- A concrete user message for direct `appendTurn` calls. -/
def demoMsgU : Message :=
  { id := "w-u", role := Role.user, text := "hello", audio := none,
    created_at := 5 }

/-- A concrete assistant message for direct `appendTurn` calls. -/
def demoMsgA : Message :=
  { id := "w-a", role := Role.assistant, text := "hi", audio := none,
    created_at := 6 }

/-- A second concrete user message. -/
def demoMsgU2 : Message := { demoMsgU with id := "w-u2", created_at := 7 }

/-- A second concrete assistant message. -/
def demoMsgA2 : Message := { demoMsgA with id := "w-a2", created_at := 8 }

/-! ## The claims -/

/-- Claim C1: for every session, immediately after creation and after every
subsequent operation, the first message of the session's history exists and
has role `system`: in every reachable store, every stored session's message
list starts with a system message. -/
theorem head_message_is_system (st : Store) (h : Reachable st) (sid : String)
    (s : Session) (hs : lookupSession st.sessions sid = some s) :
    ∃ m rest, s.messages = m :: rest ∧ m.role = Role.system :=
  (reachable_wf st h sid s hs).1

/-- Witness for C1: the invariant evaluated on the concrete store holding the
freshly created `session-0`. -/
theorem head_message_is_system_witness :
    ∃ m rest, demoSession.messages = m :: rest ∧ m.role = Role.system :=
  head_message_is_system demoStore
    (Reachable.create Store.empty demoScenario Reachable.empty)
    "session-0" demoSession rfl

/-- Claim C2: every successful `submitVoice` call grows the session's history
by exactly two messages, user then assistant appended at the end, and the
assistant's timestamp is strictly greater than the user's. -/
theorem submitVoice_success_appends_pair (p : Provider) (st : Store)
    (sid : String) (blob : AudioPayload) (s' : Session) (st' : Store) (n : Nat)
    (h : submitVoice p st sid blob = (Except.ok s', st', n)) :
    ∃ s u a, lookupSession st.sessions sid = some s ∧
      s'.messages = s.messages ++ [u, a] ∧
      s'.messages.length = s.messages.length + 2 ∧
      lookupSession st'.sessions sid = some s' ∧
      u.role = Role.user ∧ a.role = Role.assistant ∧
      u.created_at < a.created_at := by
  obtain ⟨s, u, a, hl, hpt, hs', hst'⟩ :=
    submitVoice_ok_inv p st sid blob s' st' n h
  obtain ⟨_, _, hur, har, hcu, hca⟩ :=
    processTurn_ok_inv p s blob st.clock u a n hpt
  refine ⟨s, u, a, hl, ?_, ?_, ?_, hur, har, by omega⟩
  · rw [hs']
    rfl
  · rw [hs']
    simp [Session.append]
  · rw [hst']
    exact lookupSession_updateSession_self st.sessions sid s' s hl

/-- Witness for C2: the concrete successful submission `demoCommit`. -/
theorem submitVoice_success_appends_pair_witness :
    ∃ s u a, lookupSession demoStore.sessions "session-0" = some s ∧
      demoOkSession.messages = s.messages ++ [u, a] ∧
      demoOkSession.messages.length = s.messages.length + 2 ∧
      lookupSession demoOkStore.sessions "session-0" = some demoOkSession ∧
      u.role = Role.user ∧ a.role = Role.assistant ∧
      u.created_at < a.created_at :=
  submitVoice_success_appends_pair stubProvider demoStore "session-0" demoBlob
    demoOkSession demoOkStore demoOkCount rfl

/-- Claim C3: a failed `submitVoice` call (provider error, invalid audio or
unknown session) leaves the store — and hence every session's message
sequence — exactly as it was: no partial commit. -/
theorem submitVoice_failure_preserves_history (p : Provider) (st : Store)
    (sid : String) (blob : AudioPayload) (e : CoreError) (st2 : Store)
    (n : Nat) (h : submitVoice p st sid blob = (Except.error e, st2, n)) :
    st2 = st ∧
      ∀ sid2, lookupSession st2.sessions sid2
        = lookupSession st.sessions sid2 := by
  have h0 := submitVoice_error_store p st sid blob e st2 n h
  exact ⟨h0, fun sid2 => by rw [h0]⟩

/-- Witness for C3: the concrete provider-failure submission `demoFail`. -/
theorem submitVoice_failure_preserves_history_witness :
    demoFail.2.1 = demoStore ∧
      ∀ sid2, lookupSession demoFail.2.1.sessions sid2
        = lookupSession demoStore.sessions sid2 :=
  submitVoice_failure_preserves_history failingProvider demoStore "session-0"
    demoBlob CoreError.ProviderError demoFail.2.1 demoFail.2.2 rfl

/-- Claim C4: an empty audio blob is rejected before the provider is ever
invoked: `processTurn` fails with `InvalidAudio` and zero provider calls, the
gateway's provider call count stays 0, and on an existing session the call
fails with `InvalidAudio`. -/
theorem empty_blob_rejected_before_provider (p : Provider) (st : Store)
    (sid : String) (blob : AudioPayload) (hempty : blob.data = "") :
    (∀ s now, processTurn p s blob now
        = (Except.error CoreError.InvalidAudio, 0)) ∧
      (submitVoice p st sid blob).2.2 = 0 ∧
      (∀ s, st.get sid = Except.ok s →
        (submitVoice p st sid blob).1
          = Except.error CoreError.InvalidAudio) := by
  have hb : blob.data.isEmpty = true := by rw [hempty]; rfl
  refine ⟨?_, ?_, ?_⟩
  · intro s now
    simp [processTurn, hb]
  · cases hg : st.get sid with
    | error e => simp [submitVoice, hg]
    | ok s => simp [submitVoice, hg, processTurn, hb]
  · intro s hs
    simp [submitVoice, hs, processTurn, hb]

/-- Witness for C4: the empty blob submitted to the concrete `session-0`. -/
theorem empty_blob_rejected_before_provider_witness :
    (∀ s now, processTurn stubProvider s emptyBlob now
        = (Except.error CoreError.InvalidAudio, 0)) ∧
      (submitVoice stubProvider demoStore "session-0" emptyBlob).2.2 = 0 ∧
      (∀ s, demoStore.get "session-0" = Except.ok s →
        (submitVoice stubProvider demoStore "session-0" emptyBlob).1
          = Except.error CoreError.InvalidAudio) :=
  empty_blob_rejected_before_provider stubProvider demoStore "session-0"
    emptyBlob rfl

/-- Claim C5: a session id not present in the store makes `get` fail with
`NotFound` — never a default or empty session — and a voice submission to it
fails with `NotFound`, leaving the store (and provider call count) untouched. -/
theorem get_unknown_fails_notFound (st : Store) (sid : String)
    (h : lookupSession st.sessions sid = none) :
    st.get sid = Except.error CoreError.NotFound ∧
      ∀ p blob, submitVoice p st sid blob
        = (Except.error CoreError.NotFound, st, 0) := by
  refine ⟨?_, ?_⟩
  · simp [Store.get, h]
  · intro p blob
    simp [submitVoice, Store.get, h]

/-- Witness for C5: a session id that was never created, against the concrete
one-session store. -/
theorem get_unknown_fails_notFound_witness :
    demoStore.get "session-99" = Except.error CoreError.NotFound ∧
      ∀ p blob, submitVoice p demoStore "session-99" blob
        = (Except.error CoreError.NotFound, demoStore, 0) :=
  get_unknown_fails_notFound demoStore "session-99" rfl

/-- Claim C6: per-session commits never interleave and cross-session commits
are independent.  First part: two `appendTurn` commits on the same session,
in whichever order the store serializes them, leave the two blocks contiguous,
one entirely before the other.  Second part: `appendTurn` calls on different
session ids commute — executing them in either order yields the same store,
so neither blocks or disturbs the other. -/
theorem appendTurn_serialization_and_isolation :
    (∀ (st : Store) (sid : String) (s : Session) (ms1 ms2 : List Message)
        (st1 : Store) (s1 : Session) (st2 : Store) (s2 : Session),
      lookupSession st.sessions sid = some s →
      st.appendTurn sid ms1 = Except.ok (st1, s1) →
      st1.appendTurn sid ms2 = Except.ok (st2, s2) →
      s2.messages = s.messages ++ (ms1 ++ ms2)) ∧
    (∀ (st : Store) (sid1 sid2 : String) (ms1 ms2 : List Message)
        (stA : Store) (sA : Session) (stB : Store) (sB : Session)
        (stC : Store) (sC : Session) (stD : Store) (sD : Session),
      sid1 ≠ sid2 →
      st.appendTurn sid1 ms1 = Except.ok (stA, sA) →
      stA.appendTurn sid2 ms2 = Except.ok (stB, sB) →
      st.appendTurn sid2 ms2 = Except.ok (stC, sC) →
      stC.appendTurn sid1 ms1 = Except.ok (stD, sD) →
      stB = stD) := by
  constructor
  · intro st sid s ms1 ms2 st1 s1 st2 s2 h h1 h2
    obtain ⟨s0, hl0, hs1, hst1s, _, _⟩ := appendTurn_ok_inv st sid ms1 st1 s1 h1
    have hs0 : s0 = s := Option.some.inj (hl0.symm.trans h)
    subst hs0
    obtain ⟨t0, hlt0, hs2, _, _, _⟩ := appendTurn_ok_inv st1 sid ms2 st2 s2 h2
    have hl1 : lookupSession st1.sessions sid = some s1 := by
      rw [hst1s]
      exact lookupSession_updateSession_self st.sessions sid s1 s0 hl0
    have ht0 : t0 = s1 := Option.some.inj (hlt0.symm.trans hl1)
    subst ht0
    rw [hs2, hs1]
    simp [Session.append]
  · intro st sid1 sid2 ms1 ms2 stA sA stB sB stC sC stD sD hne hA hB hC hD
    obtain ⟨x1, hx1, hsA, hsAs, hsAc, hsAn⟩ :=
      appendTurn_ok_inv st sid1 ms1 stA sA hA
    obtain ⟨x2, hx2, hsB, hsBs, hsBc, hsBn⟩ :=
      appendTurn_ok_inv stA sid2 ms2 stB sB hB
    obtain ⟨x3, hx3, hsC, hsCs, hsCc, hsCn⟩ :=
      appendTurn_ok_inv st sid2 ms2 stC sC hC
    obtain ⟨x4, hx4, hsD, hsDs, hsDc, hsDn⟩ :=
      appendTurn_ok_inv stC sid1 ms1 stD sD hD
    have hne2 : sid2 ≠ sid1 := fun hh => hne hh.symm
    have hx2' : lookupSession st.sessions sid2 = some x2 := by
      rw [hsAs, lookupSession_updateSession_ne st.sessions sid1 sid2 sA hne2]
        at hx2
      exact hx2
    have hx4' : lookupSession st.sessions sid1 = some x4 := by
      rw [hsCs, lookupSession_updateSession_ne st.sessions sid2 sid1 sC hne]
        at hx4
      exact hx4
    have hx32 : x3 = x2 := Option.some.inj (hx3.symm.trans hx2')
    have hx41 : x4 = x1 := Option.some.inj (hx4'.symm.trans hx1)
    have hBD_sess : stB.sessions = stD.sessions := by
      rw [hsBs, hsAs, hsDs, hsCs, hsB, hsD, hsA, hsC, hx32, hx41]
      exact updateSession_comm st.sessions sid1 sid2 (x1.append ms1)
        (x2.append ms2) hne
    have hBD_clock : stB.clock = stD.clock := by
      rw [hsBc, hsAc, hsDc, hsCc]
    have hBD_next : stB.nextId = stD.nextId := by
      rw [hsBn, hsAn, hsDn, hsCn]
    have hB_eta : stB = ⟨stB.sessions, stB.clock, stB.nextId⟩ := rfl
    have hD_eta : stD = ⟨stD.sessions, stD.clock, stD.nextId⟩ := rfl
    rw [hB_eta, hD_eta, hBD_sess, hBD_clock, hBD_next]

/-- Witness for C6: both parts evaluated on the concrete two-session store —
two sequential commits on `session-0`, and the two-order comparison of one
commit on `session-0` against one on `session-1`. -/
theorem appendTurn_serialization_and_isolation_witness :
    (okSession (Store.appendTurn
        (okStore (demoStoreTwo.appendTurn "session-0" [demoMsgU, demoMsgA]))
        "session-0" [demoMsgU2, demoMsgA2])).messages
      = demoSession.messages ++ ([demoMsgU, demoMsgA] ++ [demoMsgU2, demoMsgA2]) ∧
    okStore (Store.appendTurn
        (okStore (demoStoreTwo.appendTurn "session-0" [demoMsgU, demoMsgA]))
        "session-1" [demoMsgU2, demoMsgA2])
      = okStore (Store.appendTurn
        (okStore (demoStoreTwo.appendTurn "session-1" [demoMsgU2, demoMsgA2]))
        "session-0" [demoMsgU, demoMsgA]) :=
  ⟨appendTurn_serialization_and_isolation.1 demoStoreTwo "session-0"
      demoSession [demoMsgU, demoMsgA] [demoMsgU2, demoMsgA2]
      (okStore (demoStoreTwo.appendTurn "session-0" [demoMsgU, demoMsgA]))
      (okSession (demoStoreTwo.appendTurn "session-0" [demoMsgU, demoMsgA]))
      (okStore (Store.appendTurn
        (okStore (demoStoreTwo.appendTurn "session-0" [demoMsgU, demoMsgA]))
        "session-0" [demoMsgU2, demoMsgA2]))
      (okSession (Store.appendTurn
        (okStore (demoStoreTwo.appendTurn "session-0" [demoMsgU, demoMsgA]))
        "session-0" [demoMsgU2, demoMsgA2]))
      rfl rfl rfl,
   appendTurn_serialization_and_isolation.2 demoStoreTwo "session-0"
      "session-1" [demoMsgU, demoMsgA] [demoMsgU2, demoMsgA2]
      (okStore (demoStoreTwo.appendTurn "session-0" [demoMsgU, demoMsgA]))
      (okSession (demoStoreTwo.appendTurn "session-0" [demoMsgU, demoMsgA]))
      (okStore (Store.appendTurn
        (okStore (demoStoreTwo.appendTurn "session-0" [demoMsgU, demoMsgA]))
        "session-1" [demoMsgU2, demoMsgA2]))
      (okSession (Store.appendTurn
        (okStore (demoStoreTwo.appendTurn "session-0" [demoMsgU, demoMsgA]))
        "session-1" [demoMsgU2, demoMsgA2]))
      (okStore (demoStoreTwo.appendTurn "session-1" [demoMsgU2, demoMsgA2]))
      (okSession (demoStoreTwo.appendTurn "session-1" [demoMsgU2, demoMsgA2]))
      (okStore (Store.appendTurn
        (okStore (demoStoreTwo.appendTurn "session-1" [demoMsgU2, demoMsgA2]))
        "session-0" [demoMsgU, demoMsgA]))
      (okSession (Store.appendTurn
        (okStore (demoStoreTwo.appendTurn "session-1" [demoMsgU2, demoMsgA2]))
        "session-0" [demoMsgU, demoMsgA]))
      (by decide) rfl rfl rfl rfl⟩

/-- Claim C7: within any stored session of any reachable store, timestamps
are non-decreasing in append order: a message appended no later than another
has a timestamp less than or equal to the other's. -/
theorem timestamps_nondecreasing (st : Store) (h : Reachable st)
    (sid : String) (s : Session)
    (hs : lookupSession st.sessions sid = some s)
    (i j : Nat) (hi : i < s.messages.length) (hj : j < s.messages.length)
    (hij : i ≤ j) :
    (s.messages.get ⟨i, hi⟩).created_at
      ≤ (s.messages.get ⟨j, hj⟩).created_at := by
  have hchain := (reachable_wf st h sid s hs).2.1
  haveI : IsTrans Message (fun x y => x.created_at ≤ y.created_at) :=
    ⟨fun a b c h1 h2 => le_trans h1 h2⟩
  have hpw : s.messages.Pairwise (fun x y => x.created_at ≤ y.created_at) :=
    List.chain'_iff_pairwise.mp hchain
  rcases Nat.lt_or_ge j (i + 1) with hge | hlt
  · have : i = j := by omega
    subst this
    exact le_refl _
  · exact List.pairwise_iff_get.mp hpw ⟨i, hi⟩ ⟨j, hj⟩ (by simpa using hlt)

/-- Witness for C7: the first and third message of `session-0` after the
concrete successful submission `demoCommit`. -/
theorem timestamps_nondecreasing_witness :
    (demoOkSession.messages.get ⟨0, by decide⟩).created_at
      ≤ (demoOkSession.messages.get ⟨2, by decide⟩).created_at :=
  timestamps_nondecreasing demoOkStore
    (Reachable.submit demoStore stubProvider "session-0" demoBlob
      (Reachable.create Store.empty demoScenario Reachable.empty))
    "session-0" demoOkSession rfl 0 2 (by decide) (by decide) (by decide)

/-- A concrete frontend system message. -/
def demoSysCM : ConversationMessage :=
  { id := "m0", role := Role.system, text := "seed", audio := none,
    created_at := "2026-10-12T09:00:00Z" }

/-- A concrete frontend user message. -/
def demoUserCM : ConversationMessage :=
  { id := "m1", role := Role.user, text := "Id like a coffee", audio := none,
    created_at := "2026-10-12T09:00:05Z" }

/-- A concrete frontend assistant message. -/
def demoAsstCM : ConversationMessage :=
  { id := "m2", role := Role.assistant, text := "Sure, what size?",
    audio := none, created_at := "2026-10-12T09:00:07Z" }

/-- A concrete frontend conversation state. -/
def demoConv : ConversationState :=
  { session_id := "session-0", scenario := demoScenario,
    messages := [demoSysCM, demoUserCM, demoAsstCM] }

/-- Claim C8: the learner-facing view renders exactly the non-system
messages, in history order: membership in `displayMessages` is membership in
the history with a non-system role, the view is a sublist of the history
(order preserved), and every user or assistant message is displayed. -/
theorem displayMessages_filters_system (conv : ConversationState) :
    (∀ m, m ∈ displayMessages (some conv) ↔
      m ∈ conv.messages ∧ m.role ≠ Role.system) ∧
    List.Sublist (displayMessages (some conv)) conv.messages ∧
    (∀ m, m ∈ conv.messages → m.role ≠ Role.system →
      m ∈ displayMessages (some conv)) := by
  refine ⟨?_, ?_, ?_⟩
  · intro m
    simp [displayMessages]
  · exact List.filter_sublist conv.messages
  · intro m hm hr
    simp [displayMessages, hm, hr]

/-- Witness for C8: the concrete conversation `demoConv`: its user message is
displayed, characterised by the filter membership. -/
theorem displayMessages_filters_system_witness :
    (demoUserCM ∈ displayMessages (some demoConv) ↔
      demoUserCM ∈ demoConv.messages ∧ demoUserCM.role ≠ Role.system) ∧
    demoUserCM ∈ displayMessages (some demoConv) :=
  ⟨(displayMessages_filters_system demoConv).1 demoUserCM,
   (displayMessages_filters_system demoConv).2.2 demoUserCM (by decide)
     (by decide)⟩

/-- Runs in which every data event is empty accumulate no chunks. -/
theorem handleData_foldl_of_empty (events : List (List Nat)) :
    ∀ acc, (∀ d ∈ events, d.length = 0) →
      events.foldl VoiceRecorder.handleData acc = acc := by
  induction events with
  | nil =>
    intro acc _
    rfl
  | cons d rest ih =>
    intro acc hall
    have hd : d.length = 0 := hall d (List.mem_cons_self d rest)
    have hrest : ∀ d2 ∈ rest, d2.length = 0 :=
      fun d2 hd2 => hall d2 (List.mem_cons_of_mem d hd2)
    simp only [List.foldl_cons, VoiceRecorder.handleData, hd]
    rw [if_neg (by omega)]
    exact ih acc hrest

/-- Claim C9: a recording run in which the recorder emits no chunk of
positive size still invokes `onRecordingComplete`, with a zero-byte blob: the
`ondataavailable` handler filters empty chunks, but `onstop` calls the
callback unconditionally on the built blob. -/
theorem recorder_completes_with_empty_blob (events : List (List Nat))
    (h : ∀ d ∈ events, d.length = 0) :
    VoiceRecorder.onStop events = some [] := by
  simp [VoiceRecorder.onStop, VoiceRecorder.recordRun,
    handleData_foldl_of_empty events [] h]

/-- Witness for C9: a run emitting two empty data events. -/
theorem recorder_completes_with_empty_blob_witness :
    VoiceRecorder.onStop [[], []] = some [] :=
  recorder_completes_with_empty_blob [[], []] (by decide)

/-- Claim C10: when the voice HTTP request fails, `sendVoiceMessage` leaves
the conversation (and the scenario list) unchanged, sets only the error
banner, and resets the processing flag. -/
theorem sendVoiceMessage_failure_keeps_conversation (st : App.AppState)
    (c : ConversationState) (h : st.conversation = some c) :
    (App.sendVoiceMessage st App.HttpResult.err).conversation = some c ∧
    (App.sendVoiceMessage st App.HttpResult.err).error
      = some App.voiceFailureText ∧
    (App.sendVoiceMessage st App.HttpResult.err).processing = false ∧
    (App.sendVoiceMessage st App.HttpResult.err).scenarios = st.scenarios := by
  simp [App.sendVoiceMessage, h]

/-- Witness for C10: a concrete app state in mid-processing whose request
fails. -/
theorem sendVoiceMessage_failure_keeps_conversation_witness :
    (App.sendVoiceMessage
        { scenarios := [demoScenario], loadingScenarios := false,
          conversation := some demoConv, error := none, processing := true }
        App.HttpResult.err).conversation = some demoConv ∧
    (App.sendVoiceMessage
        { scenarios := [demoScenario], loadingScenarios := false,
          conversation := some demoConv, error := none, processing := true }
        App.HttpResult.err).error = some App.voiceFailureText ∧
    (App.sendVoiceMessage
        { scenarios := [demoScenario], loadingScenarios := false,
          conversation := some demoConv, error := none, processing := true }
        App.HttpResult.err).processing = false ∧
    (App.sendVoiceMessage
        { scenarios := [demoScenario], loadingScenarios := false,
          conversation := some demoConv, error := none, processing := true }
        App.HttpResult.err).scenarios = [demoScenario] :=
  sendVoiceMessage_failure_keeps_conversation
    { scenarios := [demoScenario], loadingScenarios := false,
      conversation := some demoConv, error := none, processing := true }
    demoConv rfl

end Practice
